import Mathlib

/-!
Verification development for `java_version_config_updater.py`, a script that,
for each repository in a CSV list, clones/updates the repository, detects the
Java version declared in `build.gradle`, renders a CircleCI config from a
master template by substituting a Docker-image placeholder, writes it, and
commits and pushes the result.

The pure logic of the script (regular-expression version detection, Python
`int()` parsing and image selection, `str.replace` template substitution,
repository-name extraction from a URL, path-suffix checking, publisher
behaviour, and the orchestration/exit discipline) is embedded as executable
Lean definitions, translated clause by clause from the Python source.
External effects (filesystem, network, git subprocesses) are abstracted as
an environment of oracles; the control flow over them is embedded exactly.
-/

/- ## Character classes (ASCII fragment of Python `re` / `str` semantics) -/

/-- Python regex `\d` restricted to ASCII: a decimal digit `0`-`9`. -/
def pyIsDigit (c : Char) : Bool :=
  '0' ≤ c && c ≤ '9'

/-- Python regex `\s` restricted to ASCII: space, tab, newline, carriage
return, vertical tab, form feed. -/
def pyIsSpace (c : Char) : Bool :=
  c = ' ' || c = '\t' || c = '\n' || c = '\r' || c = Char.ofNat 11 || c = Char.ofNat 12

/-- The single-quote character, written via its code point. -/
def squote : Char := Char.ofNat 39

/-- The double-quote character. -/
def dquote : Char := Char.ofNat 34

/-- The character class `['"]` of the numeric-assignment regex. -/
def isQuoteChar (c : Char) : Bool :=
  c = squote || c = dquote

/- ## List utilities shared by the embedded string functions -/

/-- If `p` is a prefix of `s`, return the remainder of `s`; otherwise `none`. -/
def dropPrefixOf : List Char → List Char → Option (List Char)
  | [], s => some s
  | _ :: _, [] => none
  | a :: ps, b :: ss => if a = b then dropPrefixOf ps ss else none

/-- Does `s` start with `p`? -/
def startsWithL (p s : List Char) : Bool :=
  (dropPrefixOf p s).isSome

/-- Does `hay` contain `needle` as a contiguous substring? -/
def containsSub (needle : List Char) : List Char → Bool
  | [] => startsWithL needle []
  | c :: rest => startsWithL needle (c :: rest) || containsSub needle rest

/-- Drop the longest prefix of Python-whitespace characters (regex `\s*`,
followed in the patterns by a non-whitespace literal, so greedy matching is
deterministic). -/
def skipPySpace : List Char → List Char
  | [] => []
  | c :: rest => if pyIsSpace c then skipPySpace rest else c :: rest

/-- Maximal run of digits at the front of the list: the greedy `(\d+)`
capture, given that a digit is known to be first. -/
def takeDigitRun (s : List Char) : List Char :=
  s.takeWhile pyIsDigit

/- ## Version detector: `detect_java_version` (lines 120-139)

The script runs two `re.search` calls over the whole `build.gradle` text:

  pattern 1: `sourceCompatibility\s*=\s*['"]?(\d+)['"]?`
  pattern 2: `sourceCompatibility\s*=\s*JavaVersion\.VERSION_(\d+)`

and returns the capture group of the first pattern that matches anywhere,
else `None`.  `re.search` returns the leftmost match, so each `searchP_`
below tries every start position left to right. -/

/-- Attempt pattern 1 anchored at the head of `s`, returning the `(\d+)`
capture. After `sourceCompatibility`, `\s*`, `=`, `\s*`: the optional opening
quote is consumed only when digits follow it (greedy `['"]?` with
backtracking), then the maximal digit run is captured; the optional closing
quote constrains nothing. -/
def matchP1At (s : List Char) : Option (List Char) :=
  match dropPrefixOf "sourceCompatibility".data s with
  | none => none
  | some r1 =>
    match skipPySpace r1 with
    | '=' :: r2 =>
      match skipPySpace r2 with
      | c :: r3 =>
        if isQuoteChar c then
          match r3 with
          | d :: _ => if pyIsDigit d then some (takeDigitRun r3) else none
          | [] => none
        else if pyIsDigit c then some (takeDigitRun (c :: r3))
        else none
      | [] => none
    | _ => none

/-- Leftmost match of pattern 1 over the whole text (`re.search`). -/
def searchP1 : List Char → Option (List Char)
  | [] => none
  | c :: rest =>
    match matchP1At (c :: rest) with
    | some v => some v
    | none => searchP1 rest

/-- Attempt pattern 2 anchored at the head of `s`, returning the `(\d+)`
capture after the literal `JavaVersion.VERSION_`. -/
def matchP2At (s : List Char) : Option (List Char) :=
  match dropPrefixOf "sourceCompatibility".data s with
  | none => none
  | some r1 =>
    match skipPySpace r1 with
    | '=' :: r2 =>
      match dropPrefixOf "JavaVersion.VERSION_".data (skipPySpace r2) with
      | none => none
      | some r3 =>
        match r3 with
        | d :: _ => if pyIsDigit d then some (takeDigitRun r3) else none
        | [] => none
    | _ => none

/-- Leftmost match of pattern 2 over the whole text (`re.search`). -/
def searchP2 : List Char → Option (List Char)
  | [] => none
  | c :: rest =>
    match matchP2At (c :: rest) with
    | some v => some v
    | none => searchP2 rest

/-- Embeds `detect_java_version`, content-scanning core (source lines 120-139):
pattern 1 first over the whole text, then pattern 2, else `None`. The cases
where `build.gradle` is absent or unreadable (also `None`) are modelled at
the orchestration level. -/
def detect_java_version (content : String) : Option String :=
  match searchP1 content.data with
  | some v => some ⟨v⟩
  | none =>
    match searchP2 content.data with
    | some v => some ⟨v⟩
    | none => none

/- ## Python `int()` and the image selector (lines 145-160) -/

/-- Strip Python whitespace from both ends (what `int()` does before
parsing; ASCII fragment). -/
def pyStrip (s : List Char) : List Char :=
  ((s.dropWhile pyIsSpace).reverse.dropWhile pyIsSpace).reverse

/-- Continue parsing a digit string in which single underscores may separate
digits (Python 3 integer-literal grammar used by `int()`). `acc` is the value
of the digits read so far. -/
def udigitsAux : Nat → List Char → Option Nat
  | acc, [] => some acc
  | acc, c :: rest =>
    if pyIsDigit c then udigitsAux (10 * acc + (c.toNat - 48)) rest
    else if c = '_' then
      match rest with
      | d :: rest2 =>
        if pyIsDigit d then udigitsAux (10 * acc + (d.toNat - 48)) rest2 else none
      | [] => none
    else none

/-- Parse a non-empty digit string with optional single underscores between
digits; fails on a leading or trailing underscore, a doubled underscore, or
any non-digit. -/
def parseUDigits : List Char → Option Nat
  | [] => none
  | c :: rest =>
    if pyIsDigit c then udigitsAux (c.toNat - 48) rest else none

/-- Python `int(s)` on a string: strip whitespace, optional sign, then the
underscore-digit grammar; `none` models the `ValueError`. -/
def pyIntOfString (s : String) : Option Int :=
  match pyStrip s.data with
  | '+' :: rest => (parseUDigits rest).map Int.ofNat
  | '-' :: rest => (parseUDigits rest).map (fun n => -(Int.ofNat n : Int))
  | t => (parseUDigits t).map Int.ofNat

/-- Image A: the Java-17 image returned for versions ≥ 17. -/
def imageA : String := "circleci/openjdk:17-buster-node-browsers-legacy"

/-- Image B: the Java-13 image, also the fallback. -/
def imageB : String := "circleci/openjdk:13.0-buster-node-browsers-legacy"

/-- What the selector logs besides returning an image: nothing, the
`No specific Docker image` warning, or the `Invalid Java version` error. -/
inductive SelLog where
  | clean
  | warnLow
  | errInvalid
deriving DecidableEq, Repr

/-- Embeds `get_docker_image_for_java_version` (lines 145-160): parse the version
with `int()`; ≥ 17 gives image A, ≥ 13 gives image B, below 13 gives image B
with a warning, and a parse failure gives image B with an error log. -/
def get_docker_image_for_java_version (java_version : String) : String × SelLog :=
  match pyIntOfString java_version with
  | some n =>
    if 17 ≤ n then (imageA, SelLog.clean)
    else if 13 ≤ n then (imageB, SelLog.clean)
    else (imageB, SelLog.warnLow)
  | none => (imageB, SelLog.errInvalid)

/- ## Template rendering: `update_circleci_config` (lines 162-186) -/

/-- The opening-brace and closing-brace characters of the template
placeholder, written via their code points. -/
def obrace : Char := Char.ofNat 123

def cbrace : Char := Char.ofNat 125

/-- The placeholder token of the master template, as character list:
two opening braces, `JAVA_DOCKER_IMAGE`, two closing braces. -/
def javaImageTok : List Char :=
  obrace :: obrace :: "JAVA_DOCKER_IMAGE".data ++ [cbrace, cbrace]

/-- Python `template.replace(tok, img)` for the fixed placeholder token:
scan left to right, replacing each non-overlapping occurrence. -/
def renderTemplate (img : List Char) : List Char → List Char
  | [] => []
  | c :: rest =>
    match h : dropPrefixOf javaImageTok (c :: rest) with
    | some r => img ++ renderTemplate img r
    | none => c :: renderTemplate img rest
termination_by s => s.length
decreasing_by
  · have key : ∀ p s r : List Char,
        dropPrefixOf p s = some r → r.length + p.length = s.length := by
      intro p
      induction p with
      | nil =>
        intro s r hpr
        simp only [dropPrefixOf, Option.some.injEq] at hpr
        simp [← hpr]
      | cons a ps ih =>
        intro s r hpr
        cases s with
        | nil => simp [dropPrefixOf] at hpr
        | cons b ss =>
          simp only [dropPrefixOf] at hpr
          split at hpr
          · have := ih ss r hpr
            simp only [List.length_cons]
            omega
          · exact absurd hpr (by simp)
    have hl := key _ _ _ h
    simp only [javaImageTok, List.length_cons, List.length_append] at hl ⊢
    omega
  · simp

/-- The config content written by `update_circleci_config`: the master
template with every occurrence of the placeholder replaced by the selected
Docker image (line 174). -/
def renderConfigContent (tmpl img : String) : String :=
  ⟨renderTemplate img.data tmpl.data⟩

/- ## Repository-name extraction: `clone_repository` (lines 76-78) -/

/-- Embeds `url.split('/')[-1]`: the part of the string after the last slash
(the whole string when no slash occurs). -/
def afterLastSlash (s : List Char) : List Char :=
  (s.reverse.takeWhile (fun c => c ≠ '/')).reverse

/-- The four characters of the extension argument `'.git'`. -/
def gitTok : List Char := ".git".data

/-- Embeds Python `segment.replace('.git', '')`: scan left to right and
remove every non-overlapping, leftmost-first occurrence of `.git`. -/
def replaceDotGit : List Char → List Char
  | '.' :: 'g' :: 'i' :: 't' :: t4 => replaceDotGit t4
  | c :: t => c :: replaceDotGit t
  | [] => []

/-- Embeds `repo_name = repo_url.split('/')[-1].replace('.git', '')`
(line 77): the local checkout directory name. -/
def repoNameOf (url : String) : String :=
  ⟨replaceDotGit (afterLastSlash url.data)⟩

/- ## Path suffix: `Path(repo_file).suffix.lower()` (line 52) -/

/-- ASCII lower-casing of one character (`str.lower`, ASCII fragment). -/
def asciiLowerChar (c : Char) : Char :=
  if 'A' ≤ c && c ≤ 'Z' then Char.ofNat (c.toNat + 32) else c

/-- Embeds `pathlib.Path(p).suffix`: take the final path component; its suffix is
the part from its last dot onward, provided that dot is neither the first
nor the last character of the component; otherwise the empty string. -/
def pathSuffix (p : String) : String :=
  let name := afterLastSlash p.data
  let ext := name.reverse.takeWhile (fun c => c ≠ '.')
  if ext.length = 0 then ""
  else if ext.length = name.length then ""
  else if ext.length + 1 = name.length then ""
  else ⟨'.' :: ext.reverse⟩

/-- Embeds `Path(self.repo_file).suffix.lower()` (line 52). -/
def pathSuffixLower (p : String) : String :=
  ⟨(pathSuffix p).data.map asciiLowerChar⟩

/- ## Publisher: `commit_and_push_changes` (lines 188-213) -/

/-- State of the working copy as seen by GitPython: whether any tracked file
has uncommitted modifications, and which untracked files are present. -/
structure WorkingCopy where
  trackedModified : Bool
  untracked : List String
deriving Repr

/-- GitPython `Repo.is_dirty()` with default arguments
(`untracked_files=False`): reports index/working-tree differences against
`HEAD` and ignores untracked files entirely. -/
def repoIsDirty (wc : WorkingCopy) : Bool :=
  wc.trackedModified

/-- A git operation invoked by the publisher via `repo.git`. -/
inductive GitAction where
  | add (path : String)
  | commit (message : String)
  | push
deriving DecidableEq, Repr

/-- Embeds `commit_and_push_changes` (lines 188-213), happy path (no git
exception): if `repo.is_dirty()` is false, return `True` at once with no git
operation; otherwise stage `.circleci/config.yml`, commit with the message
`Update CircleCI config for Java {version}`, push, and return `True`.
The result pairs the returned boolean with the git operations invoked. -/
def commit_and_push_changes (wc : WorkingCopy) (java_version : String) :
    Bool × List GitAction :=
  if repoIsDirty wc = false then (true, [])
  else
    (true,
      [GitAction.add ".circleci/config.yml",
       GitAction.commit ("Update CircleCI config for Java " ++ java_version),
       GitAction.push])

/- ## Orchestrator: `process_repositories`, `read_repositories`,
`_load_master_config_template`, `main` (lines 49-72, 215-254) -/

/-- One row of the CSV repository list. -/
structure RepoEntry where
  url : String
  branch : String
deriving Repr

/-- The outside world as the script observes it: results of template
loading, CSV reading, and the per-repository effectful steps.  `none` /
`false` model the exception paths the script catches. -/
structure Env where
  /-- Whether `os.makedirs(self.workspace_dir, exist_ok=True)` (line 44 of
  `__init__`) succeeds. It runs before the template load, inside no `try`
  anywhere: its exception (say, a regular file occupying the workspace
  path, or permission denial on its parent) kills the process. -/
  workspaceMakedirsOk : Bool
  /-- Content of the master config file; `none`: reading raised. -/
  masterTemplate : Option String
  /-- Path given as the repository-list argument. -/
  repoFile : String
  /-- Rows parsed from the CSV; `none`: opening/parsing raised. -/
  repoRows : Option (List RepoEntry)
  /-- Result of `clone_repository`: local path, or `none` when it logged
  and returned `None` after a git failure. -/
  clone : RepoEntry → Option String
  /-- Content of `build.gradle` in a checkout; `none`: file absent or
  unreadable (both make `detect_java_version` return `None`). -/
  gradle : String → Option String
  /-- Whether `os.makedirs(config_dir, exist_ok=True)` (line 168) succeeds
  in this checkout. This call sits before, and outside, the
  `try` of `update_circleci_config`: its exception (say, a regular file
  named `.circleci` in the repository, or permission denial) is caught
  nowhere and kills the process. -/
  makedirsOk : String → Bool
  /-- Whether the guarded open/write of `.circleci/config.yml`
  (the `try` at lines 176-186) succeeds in this checkout. -/
  writeOk : String → Bool
  /-- Working-copy state of a checkout when the publisher runs. -/
  workingCopy : String → WorkingCopy

/-- How far one repository got through the per-repository pipeline. -/
inductive RepoOutcome where
  /-- Step `clone_repository` returned `None`: logged, entry skipped. -/
  | cloneFailed
  /-- No Java version detected: logged, entry skipped. -/
  | noVersion
  /-- Step `update_circleci_config` returned `False`: publisher not invoked. -/
  | renderFailed
  /-- Publisher ran; its boolean result is recorded. -/
  | published (ok : Bool)
deriving DecidableEq, Repr

/-- What one pass of the loop body does: either it finishes the row with an
outcome, or an exception escapes every handler and the interpreter dies
(exit status 1). -/
inductive StepResult where
  /-- The row finished; processing moves to the next row. -/
  | ok (outcome : RepoOutcome)
  /-- An uncaught exception (the unguarded `os.makedirs` of
  `update_circleci_config`) aborts the whole run. -/
  | crash
deriving DecidableEq, Repr

/-- The loop body of `process_repositories` (lines 219-240) for one row:
clone, detect, render, publish; the caught failures (clone error, missing
or undetectable version, guarded write error, publish error) log and end
this row only, but a `makedirs` failure escapes.  (`if not java_version`
also skips on an empty string, kept faithfully even though the regex
captures are never empty.) -/
def processOne (env : Env) (r : RepoEntry) : StepResult :=
  match env.clone r with
  | none => StepResult.ok RepoOutcome.cloneFailed
  | some path =>
    match env.gradle path with
    | none => StepResult.ok RepoOutcome.noVersion
    | some content =>
      match detect_java_version content with
      | none => StepResult.ok RepoOutcome.noVersion
      | some ver =>
        if ver = "" then StepResult.ok RepoOutcome.noVersion
        else if env.makedirsOk path then
          if env.writeOk path then
            StepResult.ok
              (RepoOutcome.published (commit_and_push_changes (env.workingCopy path) ver).1)
          else StepResult.ok RepoOutcome.renderFailed
        else StepResult.crash

/-- Result of a whole run: `exitCode = some c` when the process terminated
with status `c` (`sys.exit(1)` before the loop, or an uncaught exception
inside it), `none` when it ran to completion; `outcomes` records the rows
that finished, in order. -/
structure RunResult where
  exitCode : Option Nat
  outcomes : List RepoOutcome
deriving DecidableEq, Repr

/-- The `for` loop of `process_repositories`: rows are processed in order;
a crash abandons the remaining rows and exits with status 1. -/
def runRows (env : Env) : List RepoEntry → RunResult
  | [] => ⟨none, []⟩
  | r :: rs =>
    match processOne env r with
    | StepResult.crash => ⟨some 1, []⟩
    | StepResult.ok o =>
      let rest := runRows env rs
      ⟨rest.exitCode, o :: rest.outcomes⟩

/-- The whole program (`main` → `__init__` → `process_repositories`):
`__init__` first creates the workspace directory (line 44, unguarded — a
failure is an uncaught exception, exit status 1), then
`_load_master_config_template` exits with status 1 on failure;
`read_repositories` exits with status 1 on a non-`.csv` extension or a
read failure; otherwise the rows are processed in order. -/
def run (env : Env) : RunResult :=
  if env.workspaceMakedirsOk then
    match env.masterTemplate with
    | none => ⟨some 1, []⟩
    | some _ =>
      if pathSuffixLower env.repoFile = ".csv" then
        match env.repoRows with
        | none => ⟨some 1, []⟩
        | some rows => runRows env rows
      else ⟨some 1, []⟩
  else ⟨some 1, []⟩

/- ## Concrete inputs used by the theorems below -/

/-- A build descriptor consisting of the single declaration
`sourceCompatibility = '17'` (quotes written via their code point). -/
def decl17 : String := ⟨"sourceCompatibility = ".data ++ [squote, '1', '7', squote]⟩

/-- A build descriptor consisting of the single symbolic declaration. -/
def declV11 : String := "sourceCompatibility = JavaVersion.VERSION_11"

/-- A descriptor with the symbolic declaration first and the quoted numeric
declaration after it. -/
def bothDecls : String := declV11 ++ "\n" ++ decl17

/-- A descriptor that contains the quoted declaration `decl17`, but with an
unquoted numeric declaration earlier in the text. -/
def badDescriptorC2 : String := ⟨"sourceCompatibility = 8\n".data ++ decl17.data⟩

/-- A build descriptor with a plain numeric declaration. -/
def gradle17 : String := "sourceCompatibility = 17"

/-- An environment whose loads succeed and whose one repository fails to
clone; nothing later in the pipeline runs for it. -/
def envDemo : Env :=
  ⟨true, some "jobs:", "repos.csv", some [⟨"https://example.com/a.git", "main"⟩],
    fun _ => none, fun _ => none, fun _ => true, fun _ => true,
    fun _ => ⟨false, []⟩⟩

/-- An environment whose repository-list path has a `.txt` extension. -/
def envC9 : Env :=
  ⟨true, some "jobs:", "repos.txt", some [⟨"https://example.com/a.git", "main"⟩],
    fun _ => none, fun _ => none, fun _ => true, fun _ => true,
    fun _ => ⟨false, []⟩⟩

/-- An environment whose loads succeed, whose one repository clones and has
a detectable version, and where creating its `.circleci` directory fails. -/
def envCrash : Env :=
  ⟨true, some "jobs:", "repos.csv", some [⟨"https://example.com/a.git", "main"⟩],
    fun _ => some "workspace/a", fun _ => some gradle17,
    fun _ => false, fun _ => true, fun _ => ⟨false, []⟩⟩

/-- A master template that contains no placeholder token. -/
def tmplNoTok : String := "jobs: docker image list"

/- ## Helper lemmas -/

theorem containsSub_cons_false {tok : List Char} {c : Char} {t : List Char}
    (h : containsSub tok (c :: t) = false) :
    startsWithL tok (c :: t) = false ∧ containsSub tok t = false := by
  rw [containsSub] at h
  exact Bool.or_eq_false_iff.mp h

theorem replaceDotGit_cons_of_no_head (c : Char) (t : List Char)
    (h : startsWithL gitTok (c :: t) = false) :
    replaceDotGit (c :: t) = c :: replaceDotGit t := by
  rw [replaceDotGit.eq_def]
  split
  · rename_i t4 heq
    rw [heq] at h
    simp [startsWithL, dropPrefixOf, gitTok] at h
  · rename_i c1 t1 hno heq
    cases heq
    rfl
  · rename_i heq
    cases heq

theorem startsWithL_gitTok_append (c : Char) (t : List Char)
    (h : startsWithL gitTok (c :: t) = false) :
    startsWithL gitTok ((c :: t) ++ gitTok) = false := by
  match t with
  | [] =>
    by_cases h1 : ('.' : Char) = c <;> simp [startsWithL, dropPrefixOf, gitTok, h1]
  | [x1] =>
    by_cases h1 : ('.' : Char) = c <;> by_cases h2 : ('g' : Char) = x1 <;>
      simp [startsWithL, dropPrefixOf, gitTok, h1, h2]
  | [x1, x2] =>
    by_cases h1 : ('.' : Char) = c <;> by_cases h2 : ('g' : Char) = x1 <;>
      by_cases h3 : ('i' : Char) = x2 <;>
      simp [startsWithL, dropPrefixOf, gitTok, h1, h2, h3]
  | x1 :: x2 :: x3 :: t3 =>
    by_cases h1 : ('.' : Char) = c
    · by_cases h2 : ('g' : Char) = x1
      · by_cases h3 : ('i' : Char) = x2
        · by_cases h4 : ('t' : Char) = x3
          · subst h1; subst h2; subst h3; subst h4
            simp [startsWithL, dropPrefixOf, gitTok] at h
          · simp [startsWithL, dropPrefixOf, gitTok, List.cons_append, h1, h2, h3, h4]
        · simp [startsWithL, dropPrefixOf, gitTok, List.cons_append, h1, h2, h3]
      · simp [startsWithL, dropPrefixOf, gitTok, List.cons_append, h1, h2]
    · simp [startsWithL, dropPrefixOf, gitTok, List.cons_append, h1]

theorem replaceDotGit_id_of_no_occ (xs : List Char)
    (h : containsSub gitTok xs = false) :
    replaceDotGit xs = xs := by
  induction xs with
  | nil => rfl
  | cons c t ih =>
    obtain ⟨h1, h2⟩ := containsSub_cons_false h
    rw [replaceDotGit_cons_of_no_head c t h1, ih h2]

theorem replaceDotGit_append_gitTok (xs : List Char)
    (h : containsSub gitTok xs = false) :
    replaceDotGit (xs ++ gitTok) = xs := by
  induction xs with
  | nil => rfl
  | cons c t ih =>
    obtain ⟨h1, h2⟩ := containsSub_cons_false h
    have h3 : startsWithL gitTok ((c :: t) ++ gitTok) = false :=
      startsWithL_gitTok_append c t h1
    rw [List.cons_append] at h3 ⊢
    rw [replaceDotGit_cons_of_no_head c (t ++ gitTok) h3, ih h2]

theorem takeWhile_append_cons (p : Char → Bool) (xs : List Char) (y : Char)
    (ys : List Char) (hall : ∀ x ∈ xs, p x = true) (hy : p y = false) :
    (xs ++ y :: ys).takeWhile p = xs := by
  induction xs with
  | nil => simp [List.takeWhile, hy]
  | cons a t ih =>
    have ha : p a = true := hall a (List.mem_cons_self a t)
    simp only [List.cons_append, List.takeWhile, ha]
    show a :: List.takeWhile p (t ++ y :: ys) = a :: t
    rw [ih (fun x hx => hall x (List.mem_cons_of_mem a hx))]

theorem afterLastSlash_append (a b : List Char) (hb : ∀ x ∈ b, x ≠ '/') :
    afterLastSlash (a ++ '/' :: b) = b := by
  unfold afterLastSlash
  have hrev : (a ++ '/' :: b).reverse = b.reverse ++ '/' :: a.reverse := by
    simp
  rw [hrev, takeWhile_append_cons _ _ _ _ ?hall ?hy, List.reverse_reverse]
  case hall =>
    intro x hx
    have : x ∈ b := List.mem_reverse.mp hx
    simp [hb x this]
  case hy => simp

theorem renderTemplate_id_of_no_tok (img : List Char) (s : List Char)
    (h : containsSub javaImageTok s = false) :
    renderTemplate img s = s := by
  induction s with
  | nil => simp [renderTemplate]
  | cons c rest ih =>
    obtain ⟨h1, h2⟩ := containsSub_cons_false h
    have hd : dropPrefixOf javaImageTok (c :: rest) = none := by
      rcases hx : dropPrefixOf javaImageTok (c :: rest) with _ | r
      · rfl
      · rw [startsWithL, hx] at h1
        simp at h1
    rw [renderTemplate.eq_def]
    simp only [hd]
    rw [ih h2]
    split
    · rename_i r heq
      rw [hd] at heq
      cases heq
    · rfl

theorem runRows_no_crash (env : Env) (rows : List RepoEntry)
    (h : ∀ r ∈ rows, processOne env r ≠ StepResult.crash) :
    (runRows env rows).exitCode = none ∧
      (runRows env rows).outcomes.length = rows.length := by
  induction rows with
  | nil => exact ⟨rfl, rfl⟩
  | cons r rs ih =>
    have hr := h r (List.mem_cons_self r rs)
    obtain ⟨e1, e2⟩ := ih (fun x hx => h x (List.mem_cons_of_mem r hx))
    cases hp : processOne env r with
    | ok o => simp [runRows, hp, e1, e2]
    | crash => exact absurd hp hr

theorem runRows_exit_of_some (env : Env) (rows : List RepoEntry) (c : Nat)
    (h : (runRows env rows).exitCode = some c) :
    c = 1 ∧ ∃ r ∈ rows, processOne env r = StepResult.crash := by
  induction rows with
  | nil => simp [runRows] at h
  | cons r rs ih =>
    cases hp : processOne env r with
    | ok o =>
      simp only [runRows, hp] at h
      obtain ⟨h1, rr, hm, hcr⟩ := ih h
      exact ⟨h1, rr, List.mem_cons_of_mem r hm, hcr⟩
    | crash =>
      simp only [runRows, hp] at h
      simp at h
      exact ⟨by omega, r, List.mem_cons_self r rs, hp⟩

/- ## Claims -/

/-- C1: the image selector `get_docker_image_for_java_version` is a total,
deterministic function on strings — for every string input it returns
exactly one image identifier and never fails; in particular it maps `17` to
image A (the Java-17 image), and `13`, `8` and `not-a-number` to image B
(the Java-13 image). -/
theorem C1_select_image_total_and_values :
    (∀ v : String, (get_docker_image_for_java_version v).1 = imageA ∨
      (get_docker_image_for_java_version v).1 = imageB) ∧
    (get_docker_image_for_java_version "17").1 = imageA ∧
    (get_docker_image_for_java_version "13").1 = imageB ∧
    (get_docker_image_for_java_version "8").1 = imageB ∧
    (get_docker_image_for_java_version "not-a-number").1 = imageB := by
  refine ⟨fun v => ?_, rfl, rfl, rfl, rfl⟩
  unfold get_docker_image_for_java_version
  rcases pyIntOfString v with _ | n
  · exact Or.inr rfl
  · by_cases h17 : (17 : Int) ≤ n
    · simp [h17]
    · by_cases h13 : (13 : Int) ≤ n <;> simp [h17, h13]

/-- Counterexample for C2: `badDescriptorC2` contains the quoted
declaration `sourceCompatibility = '17'` as a substring, yet the detector
returns `"8"` — the value of an earlier numeric-assignment match — not
`"17"`: merely containing the declaration does not determine the result. -/
theorem C2_counterexample_containment_insufficient :
    containsSub decl17.data badDescriptorC2.data = true ∧
    detect_java_version badDescriptorC2 ≠ some "17" ∧
    detect_java_version badDescriptorC2 = some "8" := by
  refine ⟨rfl, ?_, rfl⟩
  decide

/-- C2 (amended): a descriptor consisting of the declaration
`sourceCompatibility = '17'` yields `"17"`; one consisting of
`sourceCompatibility = JavaVersion.VERSION_11` yields `"11"`; and a
descriptor yields the not-detected outcome (`none`) exactly when neither
recognized pattern matches anywhere in its text.  (The original universal
claim over every text *containing* a declaration fails: the leftmost
numeric-assignment match wins.) -/
theorem C2_amended_detection :
    detect_java_version decl17 = some "17" ∧
    detect_java_version declV11 = some "11" ∧
    ∀ content : String,
      detect_java_version content = none ↔
        searchP1 content.data = none ∧ searchP2 content.data = none := by
  refine ⟨rfl, rfl, fun content => ?_⟩
  unfold detect_java_version
  rcases h1 : searchP1 content.data with _ | v
  · rcases h2 : searchP2 content.data with _ | w <;> simp
  · simp

/-- Counterexample for C3: in `envCrash`, the workspace directory is
created, and the repository list and the master template both load (the
list path ends in `.csv` and rows parse), yet the run terminates with exit
status 1: the repository's version is detected, and the unguarded
`os.makedirs` for its `.circleci` directory fails, so a per-repository
config-render I/O error aborts the whole run instead of being logged and
skipped. -/
theorem C3_counterexample_render_dir_failure_aborts :
    envCrash.workspaceMakedirsOk = true ∧
    envCrash.masterTemplate ≠ none ∧
    pathSuffixLower envCrash.repoFile = ".csv" ∧
    envCrash.repoRows ≠ none ∧
    run envCrash = ⟨some 1, []⟩ := by
  refine ⟨rfl, by simp [envCrash], rfl, by simp [envCrash], rfl⟩

/-- C3 (amended): the process exits with a non-zero status only when
creating the workspace directory fails (the unguarded `os.makedirs` at
line 44 of `__init__`, before any load), the master template cannot be
loaded, the repository list cannot be loaded (bad extension or read
failure), or a repository's `.circleci` directory-creation fails (the one
render-step call outside the `try` handler, which escapes and kills the
run); every other failure is per-repository and the run continues over all
remaining entries to completion. -/
theorem C3_exit_discipline (env : Env) :
    (∀ c : Nat, (run env).exitCode = some c →
      c ≠ 0 ∧
        (env.workspaceMakedirsOk = false ∨ env.masterTemplate = none ∨
          pathSuffixLower env.repoFile ≠ ".csv" ∨ env.repoRows = none ∨
          ∃ rows, env.repoRows = some rows ∧
            ∃ r ∈ rows, processOne env r = StepResult.crash)) ∧
    (∀ tmpl rows, env.workspaceMakedirsOk = true →
      env.masterTemplate = some tmpl →
      pathSuffixLower env.repoFile = ".csv" → env.repoRows = some rows →
      (∀ r ∈ rows, processOne env r ≠ StepResult.crash) →
      (run env).exitCode = none ∧ (run env).outcomes.length = rows.length) := by
  constructor
  · intro c hc
    unfold run at hc
    cases hw : env.workspaceMakedirsOk <;> rw [hw] at hc
    · exact ⟨by simp at hc; omega, Or.inl rfl⟩
    · rw [if_pos rfl] at hc
      rcases hm : env.masterTemplate with _ | tmpl <;> rw [hm] at hc
      · exact ⟨by simp at hc; omega, Or.inr (Or.inl rfl)⟩
      · by_cases hcsv : pathSuffixLower env.repoFile = ".csv"
        · rw [if_pos hcsv] at hc
          rcases hr : env.repoRows with _ | rows <;> rw [hr] at hc
          · exact ⟨by simp at hc; omega, Or.inr (Or.inr (Or.inr (Or.inl rfl)))⟩
          · obtain ⟨h1, hex⟩ := runRows_exit_of_some env rows c hc
            exact ⟨by omega,
              Or.inr (Or.inr (Or.inr (Or.inr ⟨rows, rfl, hex⟩)))⟩
        · rw [if_neg hcsv] at hc
          exact ⟨by simp at hc; omega, Or.inr (Or.inr (Or.inl hcsv))⟩
  · intro tmpl rows hwk hm hcsv hrows hnc
    unfold run
    rw [hwk, if_pos rfl, hm, if_pos hcsv, hrows]
    exact runRows_no_crash env rows hnc

/-- Witness for C3: a concrete environment whose workspace creation and
loads succeed and whose one repository fails to clone (a caught,
per-repository failure) finishes the run with no exit call and one
recorded outcome. -/
theorem C3_exit_discipline_witness :
    (run envDemo).exitCode = none ∧ (run envDemo).outcomes.length = 1 :=
  (C3_exit_discipline envDemo).2 "jobs:" [⟨"https://example.com/a.git", "main"⟩]
    rfl rfl rfl rfl (by decide)

/-- Counterexample for C4: for the URL `https://example.com/my.gitrepo.git`
the code derives the checkout name `myrepo`, not the final path segment
with only the trailing `.git` extension stripped (`my.gitrepo`): Python
`str.replace` also removes the interior `.git`. -/
theorem C4_counterexample_interior_git_removed :
    repoNameOf "https://example.com/my.gitrepo.git" = "myrepo" ∧
    ("myrepo" : String) ≠ "my.gitrepo" := by
  refine ⟨rfl, ?_⟩
  decide

/-- C4 (amended): the local checkout path is derived deterministically from
the repository URL as the final path segment with every occurrence of the
substring `.git` removed (not only a trailing extension); in particular a
segment free of `.git` with that suffix appended maps to the segment, and a
`.git`-free segment maps to itself. -/
theorem C4_checkout_name_removes_every_git_occurrence (pre seg : String)
    (h1 : containsSub gitTok seg.data = false)
    (h2 : seg.data.all (fun c => c ≠ '/') = true) :
    repoNameOf (pre ++ "/" ++ seg ++ ".git") = seg ∧
    repoNameOf (pre ++ "/" ++ seg) = seg := by
  have hb : ∀ x ∈ seg.data, x ≠ '/' := by
    intro x hx
    have := List.all_eq_true.mp h2 x hx
    simpa using this
  have hb4 : ∀ x ∈ seg.data ++ gitTok, x ≠ '/' := by
    intro x hx
    rcases List.mem_append.mp hx with hx1 | hx2
    · exact hb x hx1
    · have hx4 : x = '.' ∨ x = 'g' ∨ x = 'i' ∨ x = 't' := by
        simpa [gitTok] using hx2
      rcases hx4 with h | h | h | h <;> subst h <;> decide
  constructor
  · have hdata : (pre ++ "/" ++ seg ++ ".git").data =
        pre.data ++ '/' :: (seg.data ++ gitTok) := by
      simp [String.data_append, gitTok]
    unfold repoNameOf
    rw [hdata, afterLastSlash_append _ _ hb4, replaceDotGit_append_gitTok _ h1]
  · have hdata : (pre ++ "/" ++ seg).data = pre.data ++ '/' :: seg.data := by
      simp [String.data_append]
    unfold repoNameOf
    rw [hdata, afterLastSlash_append _ _ hb, replaceDotGit_id_of_no_occ _ h1]

/-- Witness for C4 (amended): the URL base `https://example.com` with
segment `fineract` — with a trailing `.git` the checkout name is
`fineract`, and without any extension it is also `fineract`. -/
theorem C4_checkout_name_witness :
    repoNameOf ("https://example.com" ++ "/" ++ "fineract" ++ ".git") = "fineract" ∧
    repoNameOf ("https://example.com" ++ "/" ++ "fineract") = "fineract" :=
  C4_checkout_name_removes_every_git_occurrence "https://example.com" "fineract"
    rfl rfl

/-- C5: for every working-copy state reported clean (`is_dirty()` false)
the publisher performs no git operation and returns success; when the
working copy is dirty it stages exactly `.circleci/config.yml` and commits
with the deterministic message `Update CircleCI config for Java {version}`
before pushing. -/
theorem C5_publisher_clean_noop_dirty_commits (wc : WorkingCopy) (v : String) :
    (repoIsDirty wc = false → commit_and_push_changes wc v = (true, [])) ∧
    (repoIsDirty wc = true →
      commit_and_push_changes wc v =
        (true, [GitAction.add ".circleci/config.yml",
                GitAction.commit ("Update CircleCI config for Java " ++ v),
                GitAction.push])) := by
  constructor <;> intro h <;> simp [commit_and_push_changes, h]

/-- Witness for C5: the clean state yields success with no git operation;
the dirty state yields the add-commit-push sequence with the message for
Java 17. -/
theorem C5_publisher_witness :
    commit_and_push_changes ⟨false, []⟩ "17" = (true, []) ∧
    commit_and_push_changes ⟨true, []⟩ "17" =
      (true, [GitAction.add ".circleci/config.yml",
              GitAction.commit "Update CircleCI config for Java 17",
              GitAction.push]) :=
  ⟨(C5_publisher_clean_noop_dirty_commits ⟨false, []⟩ "17").1 rfl,
   (C5_publisher_clean_noop_dirty_commits ⟨true, []⟩ "17").2 rfl⟩

/-- C6: when the CI config file is a newly created, untracked file in an
otherwise clean working copy, `is_dirty()` (whose default ignores untracked
files) reports no modifications, and the publisher returns success without
staging, committing or pushing — the freshly created config is never
published. -/
theorem C6_untracked_config_never_published (wc : WorkingCopy) (v : String)
    (h : wc.trackedModified = false)
    (hu : ".circleci/config.yml" ∈ wc.untracked) :
    repoIsDirty wc = false ∧ commit_and_push_changes wc v = (true, []) := by
  refine ⟨h, ?_⟩
  simp [commit_and_push_changes, repoIsDirty, h]

/-- Witness for C6: a working copy whose only change is the untracked
`.circleci/config.yml` is reported clean and nothing is published. -/
theorem C6_untracked_config_witness :
    repoIsDirty ⟨false, [".circleci/config.yml"]⟩ = false ∧
    commit_and_push_changes ⟨false, [".circleci/config.yml"]⟩ "17" = (true, []) :=
  C6_untracked_config_never_published ⟨false, [".circleci/config.yml"]⟩ "17" rfl
    (List.mem_singleton.mpr rfl)

/-- C7: the detector tries the numeric-assignment pattern first over the
whole text, then the symbolic `JavaVersion.VERSION_n` pattern, and returns
the value of the first pattern that matches; when both syntaxes occur, the
numeric assignment's value is returned even if the symbolic declaration
appears earlier in the file, and only one value is ever returned. -/
theorem C7_numeric_pattern_precedence :
    (∀ (content : String) (v : List Char),
      searchP1 content.data = some v → detect_java_version content = some ⟨v⟩) ∧
    (∀ content : String, searchP1 content.data = none →
      detect_java_version content =
        Option.map (fun l => (⟨l⟩ : String)) (searchP2 content.data)) ∧
    detect_java_version bothDecls = some "17" := by
  refine ⟨fun content v h => ?_, fun content h => ?_, rfl⟩
  · unfold detect_java_version
    rw [h]
  · unfold detect_java_version
    rw [h]
    rcases hw : searchP2 content.data with _ | w <;> rfl

/-- Witness for C7: on the descriptor with the symbolic declaration first
and the quoted numeric declaration `17` later, the numeric value wins. -/
theorem C7_numeric_precedence_witness :
    detect_java_version bothDecls = some "17" :=
  C7_numeric_pattern_precedence.1 bothDecls "17".data rfl

/-- C8: on the dotted declaration `sourceCompatibility = 1.8` the
numeric-assignment pattern matches the digits before the dot, so the
detector returns `"1"` (neither `"8"` nor not-detected), and the selector
maps `"1"` to the baseline Java-13 image with the no-specific-image
warning. -/
theorem C8_dotted_compat_yields_one :
    detect_java_version "sourceCompatibility = 1.8" = some "1" ∧
    get_docker_image_for_java_version "1" = (imageB, SelLog.warnLow) :=
  ⟨rfl, rfl⟩

/-- C9: for every environment whose repository-list path has an extension
other than `.csv` (after lower-casing), the program exits with status 1
with no repository processed — no checkout is attempted. -/
theorem C9_unsupported_extension_aborts (env : Env)
    (h : pathSuffixLower env.repoFile ≠ ".csv") :
    (run env).exitCode = some 1 ∧ (run env).outcomes = [] := by
  unfold run
  cases hw : env.workspaceMakedirsOk
  · exact ⟨rfl, rfl⟩
  · rw [if_pos rfl]
    rcases hm : env.masterTemplate with _ | tmpl
    · exact ⟨rfl, rfl⟩
    · rw [if_neg h]
      exact ⟨rfl, rfl⟩

/-- Witness for C9: the list path `repos.txt` makes the run exit with
status 1 and process nothing. -/
theorem C9_unsupported_extension_witness :
    (run envC9).exitCode = some 1 ∧ (run envC9).outcomes = [] :=
  C9_unsupported_extension_aborts envC9 (by decide)

/-- C10: for every master template containing no occurrence of the
placeholder token and every image identifier, the rendered config equals
the template verbatim. -/
theorem C10_no_placeholder_renders_verbatim (tmpl img : String)
    (h : containsSub javaImageTok tmpl.data = false) :
    renderConfigContent tmpl img = tmpl := by
  unfold renderConfigContent
  rw [renderTemplate_id_of_no_tok img.data tmpl.data h]

/-- Witness for C10: a placeholder-free template renders to itself for a
concrete image identifier. -/
theorem C10_no_placeholder_witness :
    containsSub javaImageTok tmplNoTok.data = false ∧
    renderConfigContent tmplNoTok "some-image" = tmplNoTok :=
  ⟨rfl, C10_no_placeholder_renders_verbatim tmplNoTok "some-image" rfl⟩
